import Mathlib

/-!
A shallow embedding of the hexagonal-chess engine (hex.py, piece.py,
piece_moves.py, board.py) and proofs about it.

Modelling conventions:
* Python `int` is `ℤ`; Python float arithmetic in the evaluator is modelled
  over `ℚ` (the constants 0.1, 0.05, 0.5 are exact decimals).
* The board dictionary `{Hex: Piece}` is an insertion-ordered association
  list `List (Hex × Option Piece)`; values can be `None` in Python (and do
  become `None`, because `Piece.move` has no return statement), hence the
  `Option Piece` value type.  `dict.get` returns `None` both for a missing
  key and for a key stored with value `None`, while `hex in dict` is true
  for a key stored with value `None`; `get_piece` / `is_occupied` mirror
  this distinction.
* Exceptions that the code can raise are modelled as explicit error
  results.  `move_piece` returns the post-crash state together with the
  error, because the Python object is mutated in place before the raise.
* The `_move_cache` field is omitted: it is cleared on every mutation and
  merely memoises `get_possible_moves`, so it is observationally
  transparent on states produced by the modelled operations.
* The `while True` sliding loops are modelled with fuel `SLIDE_FUEL = 16`:
  every step adds a fixed nonzero direction vector, so some coordinate
  changes monotonically by at least 1 per step and leaves the band
  [-5, 5] after at most 11 on-board steps; 16 steps therefore always
  reach the loop's `break`.
-/

/-- Cubic hex coordinate.  The Python constructor validates q+r+s = 0;
the raw structure is unconstrained and `hexInit` models the validating
constructor. -/
structure Hex where
  q : ℤ
  r : ℤ
  s : ℤ
deriving DecidableEq, Repr

/-- `Hex.is_valid_cubic_coordinates` from hex.py. -/
def Hex.is_valid_cubic_coordinates (q r s : ℤ) : Bool :=
  decide (q + r + s = 0)

/-- The validating `Hex.__init__`: `none` models the `ValueError`
(InvalidCoordinate) raise. -/
def hexInit (q r s : ℤ) : Option Hex :=
  if Hex.is_valid_cubic_coordinates q r s then some ⟨q, r, s⟩ else none

/-- A direction vector: a plain (q, r, s) integer tuple as in hex.py. -/
def Dir : Type := ℤ × ℤ × ℤ

/-- `Hex.__add__` restricted to the tuple branch.  All direction tuples in
the program sum to 0, so the constructor check inside `__add__` always
passes; the raw component-wise sum is the faithful model of these calls. -/
def hadd (h : Hex) (d : Dir) : Hex :=
  ⟨h.q + d.1, h.r + d.2.1, h.s + d.2.2⟩

/-- `Hex.__add__`, Hex branch: builds the sum through the validating
constructor (the branch that C9 is about). -/
def hexAddChecked (a b : Hex) : Option Hex :=
  hexInit (a.q + b.q) (a.r + b.r) (a.s + b.s)

/-- `Hex.__sub__`: builds the difference through the validating
constructor. -/
def hexSubChecked (a b : Hex) : Option Hex :=
  hexInit (a.q - b.q) (a.r - b.r) (a.s - b.s)

/-- `Hex.__abs__`: (|q| + |r| + |s|) // 2 (the sum is nonnegative, so
truncating and floor division agree). -/
def hex_abs (h : Hex) : ℤ :=
  (|h.q| + |h.r| + |h.s|) / 2

/-- `hex_directions` from hex.py, in source order:
NE, N, NW, SW, S, SE. -/
def hex_directions : List Dir :=
  [(1, 0, -1), (0, 1, -1), (-1, 1, 0), (-1, 0, 1), (0, -1, 1), (1, -1, 0)]

/-- `hex_directions[i]` (all uses in the program index with 0 ≤ i ≤ 5). -/
def hexdir (i : ℕ) : Dir :=
  hex_directions.getD i (0, 0, 0)

/-- Piece colors (`"white"` / `"black"` strings in the source). -/
inductive Color where
  | white
  | black
deriving DecidableEq, Repr

/-- The `"black" if color == "white" else "white"` opponent computation. -/
def other : Color → Color
  | .white => .black
  | .black => .white

/-- Piece types (`"P" "N" "B" "R" "Q" "K"` strings in the source).  The
constructor validation of piece.py (InvalidPieceSpec) is absorbed by the
enumeration. -/
inductive PType where
  | P
  | N
  | B
  | R
  | Q
  | K
deriving DecidableEq, Repr

/-- The letter used for the piece type in algebraic notation. -/
def type_letter : PType → String
  | .P => "P"
  | .N => "N"
  | .B => "B"
  | .R => "R"
  | .Q => "Q"
  | .K => "K"

/-- `Piece` from piece.py.  The constructor sets `has_moved = False`. -/
structure Piece where
  type : PType
  color : Color
  position : Hex
  has_moved : Bool
deriving DecidableEq, Repr

/-- `Piece.move` from piece.py.  The method mutates the object but has NO
return statement, so the call expression evaluates to `None`; this is the
value `move_piece` stores into the board dictionary. -/
def Piece.move (_piece : Piece) (_new_position : Hex) : Option Piece :=
  none

/-- `Board.BOARD_RADIUS`. -/
def BOARD_RADIUS : ℤ := 5

/-- `Board.is_valid_hex`: the three checks of the source in order (the
instance state is not consulted). -/
def is_valid_hex (h : Hex) : Bool :=
  if h.q + h.r + h.s ≠ 0 then false
  else if |h.q| > BOARD_RADIUS ∨ |h.r| > BOARD_RADIUS ∨ |h.s| > BOARD_RADIUS then false
  else if max (max |h.q| |h.r|) |h.s| > BOARD_RADIUS then false
  else true

/-- Lookup of a key in the ordered dictionary model: `some v` when the key
is present with stored value `v` (which may itself be `none`). -/
def dictGet (l : List (Hex × Option Piece)) (k : Hex) : Option (Option Piece) :=
  (l.find? (fun e => decide (e.1 = k))).map (fun e => e.2)

/-- `key in dict`. -/
def dictHasKey (l : List (Hex × Option Piece)) (k : Hex) : Bool :=
  (dictGet l k).isSome

/-- `dict.pop(k)`'s effect on the mapping (keys are unique in a Python
dict, so removing every entry with this key is the same operation). -/
def dictErase (l : List (Hex × Option Piece)) (k : Hex) : List (Hex × Option Piece) :=
  l.filter (fun e => decide (e.1 ≠ k))

/-- `dict[k] = v`: replaces in place when the key exists (keeping dict
order), otherwise appends at the end, exactly as Python dicts do. -/
def dictSet (l : List (Hex × Option Piece)) (k : Hex) (v : Option Piece) :
    List (Hex × Option Piece) :=
  if dictHasKey l k then l.map (fun e => if e.1 = k then (k, v) else e)
  else l ++ [(k, v)]

/-- The game state of board.py.  `_king_positions` is split into its two
entries; `_move_cache` and `_last_move` are omitted (see the header
comment). -/
structure Board where
  board : List (Hex × Option Piece)
  king_white : Option Hex
  king_black : Option Hex
  current_player : Color
  move_number : ℤ
  moves_history : List (Hex × Hex × String)
deriving DecidableEq, Repr

/-- `Board.get_piece`: `dict.get` returns `None` for a missing key, and a
present key may also store `None`. -/
def Board.get_piece (b : Board) (h : Hex) : Option Piece :=
  (dictGet b.board h).join

/-- `Board.is_occupied`: `hex in self.board` — true for a key stored with
value `None` as well. -/
def Board.is_occupied (b : Board) (h : Hex) : Bool :=
  dictHasKey b.board h

/-- `self._king_positions.get(color)`. -/
def Board.king_pos (b : Board) (c : Color) : Option Hex :=
  match c with
  | .white => b.king_white
  | .black => b.king_black

/-- `Board.PAWN_ATTACKS`: white ↦ [NE, SE], black ↦ [SW, S]. -/
def PAWN_ATTACKS : Color → List Dir
  | .white => [hexdir 0, hexdir 5]
  | .black => [hexdir 3, hexdir 4]

/-- `Board.hex_bishop_directions`: sums of cyclically adjacent primary
directions, in source order. -/
def BISHOP_DIRECTIONS : List Dir :=
  [(1, 1, -2), (-1, 2, -1), (-2, 1, 1), (-1, -1, 2), (1, -2, 1), (2, -1, -1)]

/-- `Board.KNIGHT_PATTERNS`: the twelve hard-coded direction pairs, in
source order.  (Their sums are the six bishop vectors, each twice.) -/
def KNIGHT_PATTERNS : List (Dir × Dir) :=
  [((1, 0, -1), (0, 1, -1)),
   ((1, 0, -1), (1, -1, 0)),
   ((0, 1, -1), (-1, 1, 0)),
   ((0, 1, -1), (1, 0, -1)),
   ((-1, 1, 0), (-1, 0, 1)),
   ((-1, 1, 0), (0, 1, -1)),
   ((-1, 0, 1), (0, -1, 1)),
   ((-1, 0, 1), (-1, 1, 0)),
   ((0, -1, 1), (1, -1, 0)),
   ((0, -1, 1), (-1, 0, 1)),
   ((1, -1, 0), (1, 0, -1)),
   ((1, -1, 0), (0, -1, 1))]

/-- Fuel bound for the sliding `while True` loops; see the header comment
for why 16 steps always reach the loop's exit. -/
def SLIDE_FUEL : ℕ := 16

/-- One sliding ray of `get_rook_moves` / `get_bishop_moves`: collect
empty cells, include the first enemy piece, stop at any piece or at the
board edge.  A key stored with value `None` does not block (get_piece
yields None there). -/
def slide_collect (b : Board) (pcolor : Color) (d : Dir) : ℕ → Hex → List Hex
  | 0, _ => []
  | n + 1, cur =>
    let nxt := hadd cur d
    if ¬ is_valid_hex nxt then []
    else
      match b.get_piece nxt with
      | some t => if t.color ≠ pcolor then [nxt] else []
      | none => nxt :: slide_collect b pcolor d n nxt

/-- `get_rook_moves` from piece_moves.py. -/
def get_rook_moves (b : Board) (piece : Piece) : List Hex :=
  hex_directions.foldl (fun acc d => acc ++ slide_collect b piece.color d SLIDE_FUEL piece.position) []

/-- `get_bishop_moves` from piece_moves.py (iterates the
`BISHOP_DIRECTIONS` set; a set's iteration order does not affect the
resulting move set). -/
def get_bishop_moves (b : Board) (piece : Piece) : List Hex :=
  BISHOP_DIRECTIONS.foldl (fun acc d => acc ++ slide_collect b piece.color d SLIDE_FUEL piece.position) []

/-- `get_queen_moves`: union of rook and bishop moves. -/
def get_queen_moves (b : Board) (piece : Piece) : List Hex :=
  get_rook_moves b piece ++ get_bishop_moves b piece

/-- `get_knight_moves` from piece_moves.py: two steps along `d1`, one
step along a cyclically adjacent `d2` (indices (i+1) % 6 and (i-1) % 6),
landing on any on-board cell not occupied by a friendly piece. -/
def get_knight_moves (b : Board) (piece : Piece) : List Hex :=
  (List.range 6).foldl
    (fun acc i =>
      let d1 := hexdir i
      acc ++ ([(i + 1) % 6, (i + 5) % 6].filterMap (fun j =>
        let mv := hadd (hadd (hadd piece.position d1) d1) (hexdir j)
        if is_valid_hex mv then
          match b.get_piece mv with
          | none => some mv
          | some t => if t.color ≠ piece.color then some mv else none
        else none)))
    []

/-- `get_king_moves` from piece_moves.py. -/
def get_king_moves (b : Board) (piece : Piece) : List Hex :=
  hex_directions.foldl
    (fun acc d =>
      let mv := hadd piece.position d
      if is_valid_hex mv then
        match b.get_piece mv with
        | none => acc ++ [mv]
        | some t => if t.color ≠ piece.color then acc ++ [mv] else acc
      else acc)
    []

/-- The capture test shared by both pawn-move functions:
`board.get_piece(c).color != piece.color` guarded by `is_occupied(c)`.
When the key is present but stores `None` the Python code would raise on
the attribute access; such entries only arise downstream of the
piece-dropping `Piece.move` bug and no settled claim exercises that path,
so the cell is simply not offered as a capture here. -/
def pawn_capture_ok (b : Board) (piece : Piece) (c : Hex) : Bool :=
  is_valid_hex c && b.is_occupied c &&
    (match b.get_piece c with
     | some t => decide (t.color ≠ piece.color)
     | none => false)

/-- `get_pawn_moves` from piece_moves.py (the function
`get_possible_moves` dispatches to): forward N for white / S for black,
captures NE and NW for white / SW and SE for black. -/
def get_pawn_moves (b : Board) (piece : Piece) : List Hex :=
  let forward := if piece.color = .white then hexdir 1 else hexdir 4
  let one_step := hadd piece.position forward
  let fwd :=
    if is_valid_hex one_step && !b.is_occupied one_step then
      one_step ::
        (if !piece.has_moved then
          let two_step := hadd one_step forward
          if is_valid_hex two_step && !b.is_occupied two_step then [two_step] else []
        else [])
    else []
  let capture_left := hadd piece.position (if piece.color = .white then hexdir 0 else hexdir 3)
  let capture_right := hadd piece.position (if piece.color = .white then hexdir 2 else hexdir 5)
  fwd ++ ([capture_left, capture_right].filter (fun c => pawn_capture_ok b piece c))

/-- `Board.get_pawn_moves` from board.py (the method that
`get_possible_moves` does NOT use): forward NE for white / SW for black,
captures SE and N for white / NW and S for black. -/
def Board.get_pawn_moves (b : Board) (piece : Piece) : List Hex :=
  let forward := if piece.color = .white then hexdir 0 else hexdir 3
  let one_step := hadd piece.position forward
  let fwd :=
    if is_valid_hex one_step && !b.is_occupied one_step then
      one_step ::
        (if !piece.has_moved then
          let two_step := hadd one_step forward
          if is_valid_hex two_step && !b.is_occupied two_step then [two_step] else []
        else [])
    else []
  let capture_left := hadd piece.position (if piece.color = .white then hexdir 5 else hexdir 2)
  let capture_right := hadd piece.position (if piece.color = .white then hexdir 1 else hexdir 4)
  fwd ++ ([capture_left, capture_right].filter (fun c => pawn_capture_ok b piece c))

/-- Comparison definition for C10: the pawn-move pattern common to both
implementations (one forward step, a double step when unmoved, two
diagonal captures), parameterised by the direction choices. -/
def pawn_moves_with (b : Board) (piece : Piece) (forward capL capR : Dir) : List Hex :=
  let one_step := hadd piece.position forward
  let fwd :=
    if is_valid_hex one_step && !b.is_occupied one_step then
      one_step ::
        (if !piece.has_moved then
          let two_step := hadd one_step forward
          if is_valid_hex two_step && !b.is_occupied two_step then [two_step] else []
        else [])
    else []
  fwd ++ ([hadd piece.position capL, hadd piece.position capR].filter
    (fun c => pawn_capture_ok b piece c))

/-- The first piece encountered when sliding from `cur` along `d`
(the `while True` loops of `is_check`); `none` when the ray leaves the
board first.  Keys stored with value `None` are transparent, as
`get_piece` returns `None` there and the walrus test is falsy. -/
def ray_first_piece (b : Board) (d : Dir) : ℕ → Hex → Option Piece
  | 0, _ => none
  | n + 1, cur =>
    let nxt := hadd cur d
    if ¬ is_valid_hex nxt then none
    else
      match b.get_piece nxt with
      | some p => some p
      | none => ray_first_piece b d n nxt

/-- `Board.is_check` from board.py, block by block: adjacent enemy king,
`PAWN_ATTACKS[opponent]` squares, `KNIGHT_PATTERNS` squares, then the
rook-direction and bishop-direction slides. -/
def Board.is_check (b : Board) (color : Color) : Bool :=
  match b.king_pos color with
  | none => false
  | some king_position =>
    let opponent := other color
    (hex_directions.any (fun d =>
      let adjacent := hadd king_position d
      is_valid_hex adjacent &&
        (match b.get_piece adjacent with
         | some p => decide (p.type = .K ∧ p.color = opponent)
         | none => false)))
    || ((PAWN_ATTACKS opponent).any (fun d =>
      let attack_pos := hadd king_position d
      is_valid_hex attack_pos &&
        (match b.get_piece attack_pos with
         | some p => decide (p.type = .P ∧ p.color = opponent)
         | none => false)))
    || (KNIGHT_PATTERNS.any (fun pr =>
      let attack_pos := hadd (hadd king_position pr.1) pr.2
      is_valid_hex attack_pos &&
        (match b.get_piece attack_pos with
         | some p => decide (p.type = .N ∧ p.color = opponent)
         | none => false)))
    || (hex_directions.any (fun d =>
      match ray_first_piece b d SLIDE_FUEL king_position with
      | some p => decide (p.color = opponent ∧ (p.type = .Q ∨ p.type = .R))
      | none => false))
    || (BISHOP_DIRECTIONS.any (fun d =>
      match ray_first_piece b d SLIDE_FUEL king_position with
      | some p => decide (p.color = opponent ∧ (p.type = .Q ∨ p.type = .B))
      | none => false))

/-- The exceptions `move_piece` (and the evaluators) can raise.
`noneAttr` is the AttributeError from dereferencing `None`, `wrongTurn`
the ValueError of the turn check, `labelKey` the KeyError of the notation
label lookups, `promoteAttr` the AttributeError from the nonexistent
`self.promote_pawn` attribute, and `nameErr` the NameError of
`evaluate_position_for` on an empty board. -/
inductive MoveError where
  | noneAttr
  | wrongTurn
  | labelKey
  | promoteAttr
  | nameErr
deriving DecidableEq, Repr

/-- Result of `move_piece`.  Python mutates the board object in place, so
a raise part-way through leaves the caller's board in the intermediate
state; the `err` constructor therefore carries the state as it stands
when the exception propagates. -/
inductive MoveOutcome where
  | ok (b : Board)
  | err (e : MoveError) (b : Board)
deriving DecidableEq, Repr

def MoveOutcome.isOk : MoveOutcome → Bool
  | .ok _ => true
  | .err _ _ => false

def MoveOutcome.state : MoveOutcome → Board
  | .ok b => b
  | .err _ b => b

def MoveOutcome.errKind : MoveOutcome → Option MoveError
  | .ok _ => none
  | .err e _ => some e

/-- `Board.q_labels`: column letters A–K for q in -5..5 (a dict lookup, so
a KeyError outside that range). -/
def q_label? (q : ℤ) : Option String :=
  if q = -5 then some "A"
  else if q = -4 then some "B"
  else if q = -3 then some "C"
  else if q = -2 then some "D"
  else if q = -1 then some "E"
  else if q = 0 then some "F"
  else if q = 1 then some "G"
  else if q = 2 then some "H"
  else if q = 3 then some "I"
  else if q = 4 then some "J"
  else if q = 5 then some "K"
  else none

/-- `Board.r_labels`: str(r + 6) for r in -5..5. -/
def r_label? (r : ℤ) : Option String :=
  if -5 ≤ r ∧ r ≤ 5 then some (toString (r + 6)) else none

/-- `Board.move_piece` from board.py, in source order: fetch the piece
(attribute error on `None`), turn check, board update (storing the `None`
that `Piece.move` returns), king-cache update, `format_move` (note: the
capture test `is_occupied(end_hex)` runs on the ALREADY updated board),
history append, move-number update, player switch, and finally the
promotion branch, whose `self.promote_pawn` attribute lookup raises. -/
def Board.move_piece (b : Board) (start_hex end_hex : Hex) : MoveOutcome :=
  match b.get_piece start_hex with
  | none => .err .noneAttr b
  | some piece =>
    if piece.color ≠ b.current_player then .err .wrongTurn b
    else
      let board' := dictSet (dictErase b.board start_hex) end_hex (piece.move end_hex)
      let kw := if piece.type = .K ∧ piece.color = .white then some end_hex else b.king_white
      let kb := if piece.type = .K ∧ piece.color = .black then some end_hex else b.king_black
      let b_mid : Board := { b with board := board', king_white := kw, king_black := kb }
      match q_label? end_hex.q, r_label? end_hex.r with
      | some ql, some rl =>
        let piece_str := if piece.type = .P then "" else type_letter piece.type
        let capture_str := if b_mid.is_occupied end_hex then "x" else ""
        let move_str := piece_str ++ capture_str ++ ql ++ rl
        let hist := b.moves_history ++ [(start_hex, end_hex, move_str)]
        let mn := if b.current_player = .black then b.move_number + 1 else b.move_number
        let b2 : Board :=
          { b_mid with
            moves_history := hist
            move_number := mn
            current_player := other b.current_player }
        if piece.type = .P ∧
            ((piece.color = .white ∧ end_hex.r = BOARD_RADIUS) ∨
             (piece.color = .black ∧ end_hex.r = -BOARD_RADIUS)) then
          .err .promoteAttr b2
        else .ok b2
      | _, _ => .err .labelKey b_mid

/-- `move_functions[piece.type]` of `get_possible_moves`, dispatching to
the module-level generators of piece_moves.py. -/
def move_dispatch : PType → Board → Piece → List Hex
  | .N => get_knight_moves
  | .R => get_rook_moves
  | .B => get_bishop_moves
  | .Q => get_queen_moves
  | .K => get_king_moves
  | .P => get_pawn_moves

/-- The self-check filtering loop of `get_possible_moves`: each candidate
is applied to a full copy of the board and kept when the mover's own king
is not in check afterwards.  An exception inside the simulated
`move_piece` (only the promotion AttributeError is reachable here)
propagates out of the whole call. -/
def legalFilter (b : Board) (x : Hex) (c : Color) : List Hex → Except MoveError (List Hex)
  | [] => .ok []
  | m :: rest =>
    match b.move_piece x m with
    | .err e _ => .error e
    | .ok temp_board =>
      match legalFilter b x c rest with
      | .error e => .error e
      | .ok s => .ok (if temp_board.is_check c then s else m :: s)

/-- `Board.get_possible_moves` from board.py (the `_move_cache` read is
transparent and omitted): empty for an empty square or an opponent piece,
otherwise dispatch to the pseudo-legal generator and keep the moves whose
simulation leaves the mover's own king out of check. -/
def Board.get_possible_moves (b : Board) (h : Hex) : Except MoveError (List Hex) :=
  match b.get_piece h with
  | none => .ok []
  | some piece =>
    if piece.color ≠ b.current_player then .ok []
    else legalFilter b h b.current_player (move_dispatch piece.type b piece)

/-- `PIECE_VALUES` from board.py. -/
def piece_value : PType → ℚ
  | .P => 1
  | .N => 3
  | .B => 3
  | .R => 5
  | .Q => 9
  | .K => 1000

/-- The king-exposure term of the evaluators: (6 − number of orthogonally
adjacent friendly pieces) × 0.5 for a King, 0 otherwise. -/
def king_exposure (b : Board) (h : Hex) (piece : Piece) : ℚ :=
  if piece.type = .K then
    let friendly_pieces_nearby :=
      (hex_directions.filter (fun d =>
        let adjacent := hadd h d
        is_valid_hex adjacent &&
          (match b.get_piece adjacent with
           | some ap => decide (ap.color = piece.color)
           | none => false))).length
    ((6 : ℚ) - friendly_pieces_nearby) * (1 / 2)
  else 0

/-- The per-piece quantity `value + center_bonus + mobility_bonus -
king_exposure_penalty` computed inside both evaluators' loops.  Mobility
is the size of the legal-move SET, hence the dedup.  An exception from
`get_possible_moves` propagates. -/
def piece_score (b : Board) (h : Hex) (piece : Piece) : Except MoveError ℚ := do
  let value := piece_value piece.type
  let distance_to_center := hex_abs ⟨h.q - 0, h.r - 0, h.s - 0⟩
  let center_bonus := ((BOARD_RADIUS - distance_to_center : ℤ) : ℚ) * (1 / 10)
  let ms ← b.get_possible_moves h
  let mobility_bonus := (ms.dedup.length : ℚ) * (1 / 20)
  pure (value + center_bonus + mobility_bonus - king_exposure b h piece)

/-- `Board.evaluate_position` from board.py: every piece's score is
accumulated inside the loop, signed by whether its color matches the
current player.  Iterating a board entry whose stored value is `None`
raises (PIECE_VALUES[piece.type] on `None`). -/
def Board.evaluate_position (b : Board) : Except MoveError ℚ :=
  b.board.foldlM
    (fun (score : ℚ) e =>
      match e.2 with
      | none => .error .noneAttr
      | some piece => do
        let ps ← piece_score b e.1 piece
        pure (if piece.color = b.current_player then score + ps else score - ps))
    0

/-- Python's `round(x, 2)`: half-even rounding of 100·x to an integer,
divided by 100 (modelled over ℚ; the inputs of interest are exact). -/
def roundHalfEven (x : ℚ) : ℤ :=
  let fl := ⌊x⌋
  let fr := x - fl
  if fr < 1 / 2 then fl
  else if 1 / 2 < fr then fl + 1
  else if fl % 2 = 0 then fl else fl + 1

/-- `round(score, 2)`. -/
def pyRound2 (x : ℚ) : ℚ :=
  (roundHalfEven (100 * x) : ℚ) / 100

/-- `Board.evaluate_position_for` from board.py.  The statements that form
the loop body in `evaluate_position` are DEDENTED here: the loop only
computes each piece's components (for their side effects and to bind the
loop variables), and the single `score +=` / `score -=` after the loop
uses the LAST iterated entry.  An empty board leaves `value` unbound
(NameError). -/
def Board.evaluate_position_for (b : Board) (player_color : Color) : Except MoveError ℚ := do
  let last ← b.board.foldlM
    (fun (_ : Option (Piece × ℚ)) e =>
      match e.2 with
      | none => .error .noneAttr
      | some piece => do
        let ps ← piece_score b e.1 piece
        pure (some (piece, ps)))
    (none : Option (Piece × ℚ))
  match last with
  | none => .error .nameErr
  | some (piece, ps) =>
    pure (pyRound2 (if piece.color = player_color then ps else -ps))

/-- Shorthand for a board entry holding a fresh piece, as `setup_board`
creates them (`has_moved = False`, position equal to the key). -/
def mkEntry (t : PType) (c : Color) (q r s : ℤ) : Hex × Option Piece :=
  (⟨q, r, s⟩, some ⟨t, c, ⟨q, r, s⟩, false⟩)

/-- The board produced by `Board.__init__` / `setup_board`: the radius-5
initial layout in source order, the king cache filled from it, White to
move, move number 1, empty history. -/
def initialBoard : Board :=
  { board :=
      [mkEntry .B .white 0 (-5) 5,
       mkEntry .B .white 0 (-4) 4,
       mkEntry .B .white 0 (-3) 3,
       mkEntry .Q .white (-1) (-4) 5,
       mkEntry .N .white (-2) (-3) 5,
       mkEntry .R .white (-3) (-2) 5,
       mkEntry .K .white 1 (-5) 4,
       mkEntry .N .white 2 (-5) 3,
       mkEntry .R .white 3 (-5) 2,
       mkEntry .P .white (-4) (-1) 5,
       mkEntry .P .white (-3) (-1) 4,
       mkEntry .P .white (-2) (-1) 3,
       mkEntry .P .white (-1) (-1) 2,
       mkEntry .P .white 0 (-1) 1,
       mkEntry .P .white 1 (-2) 1,
       mkEntry .P .white 2 (-3) 1,
       mkEntry .P .white 3 (-4) 1,
       mkEntry .P .white 4 (-5) 1,
       mkEntry .B .black 0 5 (-5),
       mkEntry .B .black 0 4 (-4),
       mkEntry .B .black 0 3 (-3),
       mkEntry .Q .black (-1) 5 (-4),
       mkEntry .N .black (-2) 5 (-3),
       mkEntry .R .black (-3) 5 (-2),
       mkEntry .K .black 1 4 (-5),
       mkEntry .N .black 2 3 (-5),
       mkEntry .R .black 3 2 (-5),
       mkEntry .P .black (-4) 5 (-1),
       mkEntry .P .black (-3) 4 (-1),
       mkEntry .P .black (-2) 3 (-1),
       mkEntry .P .black (-1) 2 (-1),
       mkEntry .P .black 0 1 (-1),
       mkEntry .P .black 1 1 (-2),
       mkEntry .P .black 2 1 (-3),
       mkEntry .P .black 3 1 (-4),
       mkEntry .P .black 4 1 (-5)]
    king_white := some ⟨1, -5, 4⟩
    king_black := some ⟨1, 4, -5⟩
    current_player := .white
    move_number := 1
    moves_history := [] }

/-- The initial board's central White pawn (used for C10's
counterexample). -/
def wp0 : Piece := ⟨.P, .white, ⟨0, -1, 1⟩, false⟩

/-- A lone White king in the centre, White to move (used for C3's
witness). -/
def b3 : Board :=
  ⟨[(⟨0, 0, 0⟩, some ⟨.K, .white, ⟨0, 0, 0⟩, false⟩)],
   some ⟨0, 0, 0⟩, none, .white, 1, []⟩

/-- A Black king in the centre (used in C2's boards). -/
def bk2 : Piece := ⟨.K, .black, ⟨0, 0, 0⟩, false⟩

/-- A White knight a genuine knight-jump away from the Black king. -/
def wn2 : Piece := ⟨.N, .white, ⟨2, 1, -3⟩, false⟩

/-- Board for C2, first scenario: Black king at the origin, White knight
at (2, 1, -3) = origin + 2·SE-ish jump, a pseudo-legal knight move away. -/
def b2k : Board :=
  ⟨[(⟨0, 0, 0⟩, some bk2), (⟨2, 1, -3⟩, some wn2)],
   none, some ⟨0, 0, 0⟩, .white, 1, []⟩

/-- A White pawn north-east of the Black king: it cannot capture the king
(white pawns capture toward NE and NW of themselves), yet sits on one of
the squares `is_check` probes. -/
def wpNE : Piece := ⟨.P, .white, ⟨1, 0, -1⟩, false⟩

/-- Board for C2, second scenario. -/
def b2q : Board :=
  ⟨[(⟨0, 0, 0⟩, some bk2), (⟨1, 0, -1⟩, some wpNE)],
   none, some ⟨0, 0, 0⟩, .white, 1, []⟩

/-- The White pawn of C8's board. -/
def p8a : Piece := ⟨.P, .white, ⟨0, -1, 1⟩, false⟩

/-- The White knight of C8's board (the last entry in dict order). -/
def p8b : Piece := ⟨.N, .white, ⟨2, -3, 1⟩, false⟩

/-- Board for C8: two White pieces (a pawn and a knight), Black to move so
both mobility terms are zero, no kings. -/
def b8 : Board :=
  ⟨[(⟨0, -1, 1⟩, some p8a), (⟨2, -3, 1⟩, some p8b)],
   none, none, .black, 1, []⟩

/-- C1: after a successful `move_piece(from, to)` the map indeed has no
entry at `from`, but the entry stored at `to` is `None`, not the moved
piece: `Piece.move` has no return statement, so `move_piece` assigns its
`None` result to `board[to]` and the moved pawn is not retrievable at the
destination.  Evaluated on the initial board's central pawn advancing one
step. -/
theorem c1_moved_piece_not_stored :
    (initialBoard.move_piece ⟨0, -1, 1⟩ ⟨0, 0, 0⟩).isOk = true ∧
    dictGet (initialBoard.move_piece ⟨0, -1, 1⟩ ⟨0, 0, 0⟩).state.board ⟨0, -1, 1⟩ = none ∧
    dictGet (initialBoard.move_piece ⟨0, -1, 1⟩ ⟨0, 0, 0⟩).state.board ⟨0, 0, 0⟩ = some none ∧
    (initialBoard.move_piece ⟨0, -1, 1⟩ ⟨0, 0, 0⟩).state.get_piece ⟨0, 0, 0⟩ = none :=
  ⟨rfl, rfl, rfl, rfl⟩

/-- C2: `is_check` disagrees with the move generators in both directions.
A White knight whose `get_knight_moves` contains the Black king's square
does not register as check (the `KNIGHT_PATTERNS` sums probe bishop
offsets, not knight jumps), while a White pawn that cannot capture the
king (its `get_pawn_moves` misses the king's square) does register as
check, because `PAWN_ATTACKS` probes NE/SE of the king instead of the
squares white pawns actually attack from (SW/SE). -/
theorem c2_is_check_disagrees_with_generators :
    (b2k.is_check .black = false ∧ (⟨0, 0, 0⟩ : Hex) ∈ get_knight_moves b2k wn2) ∧
    (b2q.is_check .black = true ∧ (⟨0, 0, 0⟩ : Hex) ∉ get_pawn_moves b2q wpNE) := by
  decide

/-- Helper for C3: any move surviving the self-check filtering loop of
`get_possible_moves` simulates to a state where the mover's king is not in
check. -/
theorem legalFilter_mem_safe (b : Board) (x : Hex) (c : Color) :
    ∀ (l s : List Hex), legalFilter b x c l = .ok s → ∀ m ∈ s,
      ∃ tb, b.move_piece x m = .ok tb ∧ tb.is_check c = false := by
  intro l
  induction l with
  | nil =>
    intro s hs m hm
    simp [legalFilter] at hs
    subst hs
    simp at hm
  | cons a rest ih =>
    intro s hs m hm
    unfold legalFilter at hs
    cases hmv : b.move_piece x a with
    | err e bb => rw [hmv] at hs; simp at hs
    | ok tb =>
      rw [hmv] at hs
      cases hrec : legalFilter b x c rest with
      | error e => rw [hrec] at hs; simp at hs
      | ok s' =>
        rw [hrec] at hs
        simp at hs
        by_cases hch : tb.is_check c = true
        · rw [if_pos hch] at hs
          subst hs
          exact ih s' hrec m hm
        · rw [if_neg hch] at hs
          subst hs
          rcases List.mem_cons.mp hm with h | h
          · subst h
            exact ⟨tb, hmv, by simpa using hch⟩
          · exact ih s' hrec m h

/-- C3: every move returned by `get_possible_moves` for a current-player
piece simulates (via `move_piece` on a copy) to a state in which the
mover's own king is not in check — by construction of the filtering
loop. -/
theorem c3_legal_moves_leave_no_self_check (b : Board) (x m : Hex) (p : Piece)
    (s : List Hex) (hp : b.get_piece x = some p) (hc : p.color = b.current_player)
    (hs : b.get_possible_moves x = .ok s) (hm : m ∈ s) :
    ∃ tb, b.move_piece x m = .ok tb ∧ tb.is_check b.current_player = false := by
  unfold Board.get_possible_moves at hs
  rw [hp] at hs
  dsimp only at hs
  rw [if_neg (by simp [hc])] at hs
  exact legalFilter_mem_safe b x b.current_player _ s hs m hm

/-- Witness for C3: the lone White king's first legal move simulates to a
check-free state. -/
theorem c3_legal_moves_leave_no_self_check_witness :
    ∃ tb, b3.move_piece ⟨0, 0, 0⟩ ⟨1, 0, -1⟩ = .ok tb ∧
      tb.is_check b3.current_player = false :=
  c3_legal_moves_leave_no_self_check b3 ⟨0, 0, 0⟩ ⟨1, 0, -1⟩
    ⟨.K, .white, ⟨0, 0, 0⟩, false⟩
    [⟨1, 0, -1⟩, ⟨0, 1, -1⟩, ⟨-1, 1, 0⟩, ⟨-1, 0, 1⟩, ⟨0, -1, 1⟩, ⟨1, -1, 0⟩]
    rfl rfl (by rfl) (by decide)

/-- C4: a White pawn moved to r = +radius does not end as a Queen — the
promotion branch executes `self.promote_pawn(...)`, an attribute `Board`
does not have, so the call raises AttributeError and the destination entry
is left as the unpromoted (and, per the `Piece.move` bug, `None`)
value. -/
theorem c4_promotion_move_raises :
    (initialBoard.move_piece ⟨0, -1, 1⟩ ⟨0, 5, -5⟩).errKind = some .promoteAttr ∧
    dictGet (initialBoard.move_piece ⟨0, -1, 1⟩ ⟨0, 5, -5⟩).state.board ⟨0, 5, -5⟩ =
      some none :=
  ⟨rfl, rfl⟩

/-- C5: one successful king move from the initial board leaves the
king-position cache pointing at a coordinate whose map entry is `None`
(not a King of that color): the cache is updated to the destination, but
the destination entry stores the `None` returned by `Piece.move`.  (After
a king is captured the cache is not updated at all, failing the claim the
same way.) -/
theorem c5_king_cache_points_at_non_king :
    (initialBoard.move_piece ⟨1, -5, 4⟩ ⟨1, -4, 3⟩).isOk = true ∧
    (initialBoard.move_piece ⟨1, -5, 4⟩ ⟨1, -4, 3⟩).state.king_white = some ⟨1, -4, 3⟩ ∧
    dictGet (initialBoard.move_piece ⟨1, -5, 4⟩ ⟨1, -4, 3⟩).state.board ⟨1, -4, 3⟩ =
      some none ∧
    (initialBoard.move_piece ⟨1, -5, 4⟩ ⟨1, -4, 3⟩).state.get_piece ⟨1, -4, 3⟩ = none :=
  ⟨rfl, rfl, rfl, rfl⟩

/-- C6: `move_piece` rejects a move from an empty square (AttributeError
on the `None` piece) and a move of a piece that is not the current
player's (ValueError), and in both cases the raise happens before any
mutation, so the returned state is the unchanged input board. -/
theorem c6_rejected_moves_leave_state_unchanged (b : Board) (f t : Hex) :
    (b.get_piece f = none → b.move_piece f t = .err .noneAttr b) ∧
    (∀ p, b.get_piece f = some p → p.color ≠ b.current_player →
      b.move_piece f t = .err .wrongTurn b) := by
  constructor
  · intro h
    unfold Board.move_piece
    rw [h]
  · intro p hp hne
    unfold Board.move_piece
    rw [hp]
    dsimp only
    rw [if_pos hne]

/-- Witness for C6: on the initial board, moving from the empty centre
fails with the `None` attribute error, and moving Black's central pawn on
White's turn fails with the turn error; both leave the board equal to the
initial board. -/
theorem c6_rejected_moves_leave_state_unchanged_witness :
    initialBoard.move_piece ⟨0, 0, 0⟩ ⟨1, 0, -1⟩ = .err .noneAttr initialBoard ∧
    initialBoard.move_piece ⟨0, 1, -1⟩ ⟨0, 0, 0⟩ = .err .wrongTurn initialBoard :=
  ⟨(c6_rejected_moves_leave_state_unchanged initialBoard ⟨0, 0, 0⟩ ⟨1, 0, -1⟩).1 rfl,
   (c6_rejected_moves_leave_state_unchanged initialBoard ⟨0, 1, -1⟩ ⟨0, 0, 0⟩).2
     ⟨.P, .black, ⟨0, 1, -1⟩, false⟩ rfl (by decide)⟩

/-- C7: the algebraic-notation string carries the capture marker even for
a non-capture move: `format_move` is invoked after `board[end_hex]` has
been assigned, so its `is_occupied(end_hex)` test is always true.  The
initial board's central pawn advancing to the empty centre is recorded as
"xF6". -/
theorem c7_capture_marker_always_present :
    initialBoard.is_occupied ⟨0, 0, 0⟩ = false ∧
    (initialBoard.move_piece ⟨0, -1, 1⟩ ⟨0, 0, 0⟩).state.moves_history =
      [(⟨0, -1, 1⟩, ⟨0, 0, 0⟩, "xF6")] :=
  ⟨rfl, rfl⟩

/-- C8: `evaluate_position_for` does not sum over the pieces — its
accumulation statements sit outside the loop, so only the last-iterated
entry contributes.  On a two-piece board (White pawn worth 1.4 and White
knight worth 3.2 under the per-piece formula, Black to move so mobility is
zero) it returns 3.2, whereas the correctly looped sibling
`evaluate_position` accumulates the full sum 4.6 (as −4.6 from the
current player Black's perspective). -/
lemma roundHalfEven_intCast (n : ℤ) : roundHalfEven ((n : ℤ) : ℚ) = n := by
  unfold roundHalfEven
  rw [Int.floor_intCast]
  norm_num

theorem c8_evaluate_position_for_uses_last_piece_only :
    b8.evaluate_position_for .white = .ok (16 / 5) ∧
    b8.evaluate_position = .ok (-(23 / 5)) := by
  have h1 : b8.get_possible_moves ⟨0, -1, 1⟩ = Except.ok [] := by rfl
  have h2 : b8.get_possible_moves ⟨2, -3, 1⟩ = Except.ok [] := by rfl
  have hps1 : piece_score b8 ⟨0, -1, 1⟩ p8a = .ok (7 / 5) := by
    unfold piece_score
    rw [h1]
    simp [king_exposure, piece_value, hex_abs, BOARD_RADIUS, p8a]
    norm_num
  have hps2 : piece_score b8 ⟨2, -3, 1⟩ p8b = .ok (16 / 5) := by
    unfold piece_score
    rw [h2]
    simp [king_exposure, piece_value, hex_abs, BOARD_RADIUS, p8b]
    norm_num
  have hb : b8.board = [(⟨0, -1, 1⟩, some p8a), (⟨2, -3, 1⟩, some p8b)] := rfl
  have hr : (16 : ℚ) / 5 = ((320 : ℤ) : ℚ) / 100 := by norm_num
  constructor
  · unfold Board.evaluate_position_for
    rw [hb]
    simp only [List.foldlM, bind, Except.bind, pure, Except.pure, hps1, hps2]
    simp [p8b, pyRound2, hr]
    have h320 : (100 : ℚ) * (320 / 100) = ((320 : ℤ) : ℚ) := by norm_num
    rw [h320, roundHalfEven_intCast]
    norm_num
  · unfold Board.evaluate_position
    rw [hb]
    simp only [List.foldlM, bind, Except.bind, pure, Except.pure, hps1, hps2]
    simp [p8a, p8b, b8]
    norm_num

/-- C9: on cubic-valid inputs, `__add__` and `__sub__` of `Hex` always
pass the constructor validation (the InvalidCoordinate branch is
unreachable) and the results satisfy q + r + s = 0 themselves. -/
theorem c9_add_sub_preserve_cubic (a b : Hex)
    (ha : a.q + a.r + a.s = 0) (hb : b.q + b.r + b.s = 0) :
    (∃ c, hexAddChecked a b = some c ∧ c.q + c.r + c.s = 0) ∧
    (∃ d, hexSubChecked a b = some d ∧ d.q + d.r + d.s = 0) := by
  constructor
  · have h : Hex.is_valid_cubic_coordinates (a.q + b.q) (a.r + b.r) (a.s + b.s) = true := by
      simp [Hex.is_valid_cubic_coordinates]
      omega
    exact ⟨⟨a.q + b.q, a.r + b.r, a.s + b.s⟩,
      by simp [hexAddChecked, hexInit, h], by dsimp only; omega⟩
  · have h : Hex.is_valid_cubic_coordinates (a.q - b.q) (a.r - b.r) (a.s - b.s) = true := by
      simp [Hex.is_valid_cubic_coordinates]
      omega
    exact ⟨⟨a.q - b.q, a.r - b.r, a.s - b.s⟩,
      by simp [hexSubChecked, hexInit, h], by dsimp only; omega⟩

/-- Witness for C9: concrete valid coordinates through addition and
subtraction. -/
theorem c9_add_sub_preserve_cubic_witness :
    (∃ c, hexAddChecked ⟨1, 0, -1⟩ ⟨0, 1, -1⟩ = some c ∧ c.q + c.r + c.s = 0) ∧
    (∃ d, hexSubChecked ⟨1, 0, -1⟩ ⟨0, 1, -1⟩ = some d ∧ d.q + d.r + d.s = 0) :=
  c9_add_sub_preserve_cubic ⟨1, 0, -1⟩ ⟨0, 1, -1⟩ (by decide) (by decide)

/-- C10 (amended): both pawn-move implementations compute the same
one-step / double-step / two-capture pattern, but over different direction
tables: the module-level `get_pawn_moves` (the function
`get_possible_moves` dispatches to) moves White forward N with captures NE
and NW (Black: S with SW, SE), while the unused `Board.get_pawn_moves`
method moves White forward NE with captures SE and N (Black: SW with NW,
S); consequently their destination sets differ in general. -/
theorem c10_pawn_direction_tables (b : Board) (p : Piece) :
    get_pawn_moves b p =
      pawn_moves_with b p (if p.color = .white then hexdir 1 else hexdir 4)
        (if p.color = .white then hexdir 0 else hexdir 3)
        (if p.color = .white then hexdir 2 else hexdir 5) ∧
    Board.get_pawn_moves b p =
      pawn_moves_with b p (if p.color = .white then hexdir 0 else hexdir 3)
        (if p.color = .white then hexdir 5 else hexdir 2)
        (if p.color = .white then hexdir 1 else hexdir 4) :=
  ⟨rfl, rfl⟩

/-- Counterexample for C10: for the initial board's central White pawn the
Board method offers (1, -1, 0) while the dispatched module-level function
does not — the two destination sets differ. -/
theorem c10_counterexample :
    initialBoard.get_piece ⟨0, -1, 1⟩ = some wp0 ∧
    (⟨1, -1, 0⟩ : Hex) ∈ Board.get_pawn_moves initialBoard wp0 ∧
    (⟨1, -1, 0⟩ : Hex) ∉ get_pawn_moves initialBoard wp0 := by
  decide
